import Mathlib

/-!
Verification of the NAHS Caseload Counts data-access layer.

This file shallowly embeds the backend of the application
(Config.js, UserService.js, the main API file, Migration.js) in Lean 4.
External platform services (Session, CacheService, SpreadsheetApp, the
DataService data fetch) are modelled as explicit inputs: a call that can
throw is an `Except String` value, a cache is an `Option` value and a
flag saying whether a write to it fails.  JavaScript exceptions are
`Except.error`; `try`/`catch` is a `match` on the `Except`.
-/

namespace NahsCaseload

/-! ### Config.js -/

/-- `CONFIG.SECURITY.ALLOWED_DOMAIN` -/
def ALLOWED_DOMAIN : String := "@nisd.net"

/-- `CONFIG.SECURITY.FULL_ACCESS_CAMPUS_COUNT` -/
def FULL_ACCESS_CAMPUS_COUNT : Nat := 17

/-- `CONFIG.SPREADSHEET.COLUMNS_TO_REMOVE` (0-indexed column indices). -/
def COLUMNS_TO_REMOVE : List Nat := [7, 8, 9, 12, 13, 14]

/-- `CONFIG.CAMPUSES`: the fixed list of all campus names in the district. -/
def CAMPUSES : List String :=
  ["Brandeis", "Brennan", "Clark", "Harlan", "Holmgreen",
   "Health Careers", "Excel", "Holmes", "Jay", "Marshall",
   "O\x27Connor", "NAHS", "Sotomayor", "Stevens", "Taft",
   "Warren", "Reddix"]

/-- `CONFIG.LEGACY_EMAIL_CAMPUS_MAPPING`: the static identity → campus-list
permission table, transcribed from Config.js. -/
def LEGACY_EMAIL_CAMPUS_MAPPING : List (String × List String) :=
  [("alvaro.gomez@nisd.net", ["Brandeis", "Brennan", "Clark", "Harlan"]),
   ("desiree.stjean@nisd.net", ["Brandeis"]),
   ("belinda.myles@nisd.net", ["Brandeis"]),
   ("sabina.turov@nisd.net", ["Brandeis"]),
   ("dora.salazar@nisd.net", ["Brennan"]),
   ("elizabeth.rockgutierrez@nisd.net", ["Clark"]),
   ("karen.pumphrey@nisd.net", ["Clark"]),
   ("erica.koegellara@nisd.net", ["Harlan"]),
   ("andrea.aguirre@nisd.net", ["Harlan"]),
   ("eva.longoria@nisd.net", ["Health Careers", "Excel", "Holmgreen"]),
   ("leticia.lerma@nisd.net", ["Holmes"]),
   ("demi.cruz@nisd.net", ["Holmes"]),
   ("erin.ramos@nisd.net", ["Jay"]),
   ("richard.ramos@nisd.net", ["Jay"]),
   ("kayla.webb@nisd.net", ["Marshall"]),
   ("shelley.stogsdill@nisd.net", ["Marshall"]),
   ("anita.packen@nisd.net", ["O\x27Connor"]),
   ("mike.mcnierney@nisd.net", ["O\x27Connor"]),
   ("linda.rodriguez@nisd.net",
     ["Brandeis", "Brennan", "Clark", "Harlan", "Holmgreen",
      "Health Careers", "Excel", "Holmes", "Jay", "Marshall",
      "O\x27Connor", "NAHS", "Sotomayor", "Stevens", "Taft",
      "Warren", "Reddix"]),
   ("javonne.collier@nisd.net", ["Sotomayor"]),
   ("claudia.justice@nisd.net", ["Stevens"]),
   ("ariel.hill@nisd.net", ["Stevens"]),
   ("jasmine-1.flores@nisd.net", ["Taft"]),
   ("judy.harlin-alamo@nisd.net", ["Taft"]),
   ("stephanie.lucero-moncada@nisd.net", ["Warren"]),
   ("jace.pierson@nisd.net", ["Warren"]),
   ("mark.marcinik@nisd.net", ["Reddix"]),
   ("lizeth.herrera@nisd.net", ["Reddix"])]

/-- `CONFIG.LEGACY_EMAIL_CAMPUS_MAPPING[email]`: property lookup on the
mapping object (absent key → `undefined`, modelled as `none`). -/
def lookupMapping (email : String) : Option (List String) :=
  (LEGACY_EMAIL_CAMPUS_MAPPING.find? (fun p => p.1 == email)).map Prod.snd

/-- `ERROR_MESSAGES.PERMISSION_ERROR` -/
def PERMISSION_ERROR : String := "Error checking user permissions"

/-! ### UserService.js -/

/-- A JavaScript value passed to `validateUserEmail`: `null`/`undefined`,
a string, or any non-string value. -/
inductive JsValue where
  | vNull
  | vStr (s : String)
  | vOther
deriving DecidableEq

/-- JavaScript `String.prototype.endsWith`. -/
def jsEndsWith (s suffix : String) : Bool :=
  suffix.toList.isSuffixOf s.toList

/-- The regular expression `^[^\s@]+@[^\s@]+\.[^\s@]+$` from
`UserService.validateUserEmail`, as an executable matcher: the string is
`A ++ "@" ++ B ++ "." ++ C` with `A`, `B`, `C` nonempty and free of
whitespace and `@` — equivalently, exactly one `@`, nonempty
whitespace-free parts around it, and a `.` in the part after the `@`
that is neither its first nor its last character. -/
def emailRegexTest (s : String) : Bool :=
  let cs := s.toList
  (cs.count '@' == 1) &&
  (let before := cs.takeWhile (fun c => c != '@')
   let after := (cs.dropWhile (fun c => c != '@')).drop 1
   (!before.isEmpty) && before.all (fun c => !c.isWhitespace) &&
   (!after.isEmpty) && after.all (fun c => !c.isWhitespace) &&
   ((after.drop 1).dropLast.contains '.'))

/-- `UserService.validateUserEmail(email)`.  The source checks
`!email || typeof email !== 'string'` (so `null`, non-strings and the
empty string fail), then the domain suffix, then the format regex; its
own body cannot throw, and the surrounding `try`/`catch` returns `false`. -/
def validateUserEmail (v : JsValue) : Bool :=
  match v with
  | .vStr s =>
      if s.isEmpty then false
      else if !(jsEndsWith s ALLOWED_DOMAIN) then false
      else emailRegexTest s
  | _ => false

/-- `validateUserEmail` applied to a string argument. -/
def validateUserEmailStr (s : String) : Bool :=
  validateUserEmail (.vStr s)

/-- The permission record built by
`UserService.loadUserPermissionsFromConfig` (the `lastUpdated` timestamp
field is omitted: it carries no information about entitlement). -/
structure Permissions where
  email : String
  campuses : List String
  hasAccess : Bool
  isFullAccess : Bool
  role : String
deriving DecidableEq

/-- `UserService.loadUserPermissionsFromConfig(email)`: pure lookup in the
permission table.  Absent entries (`!campusList`) yield the no-access
record; present entries (all values in the table are nonempty arrays,
hence truthy) yield full data with the threshold rule. -/
def loadUserPermissionsFromConfig (email : String) : Permissions :=
  match lookupMapping email with
  | none =>
      { email := email, campuses := [], hasAccess := false,
        isFullAccess := false, role := "none" }
  | some campusList =>
      let isFullAccess : Bool := decide (FULL_ACCESS_CAMPUS_COUNT ≤ campusList.length)
      { email := email, campuses := campusList, hasAccess := true,
        isFullAccess := isFullAccess,
        role := if isFullAccess then "administrator" else "coordinator" }

/-- `UserService.getUserPermissions(email)`.  The cache is modelled by
`cached` (the deserialized entry under the permissions key for `email`,
`none` on a miss) and `putFails` (whether `cache.put` throws).  Returns
the result (an invalid email or an internal failure is rethrown as the
`PERMISSION_ERROR` wrapper, hence `Except.error`) together with the cache
entry after the call: the `cache.put` is wrapped in its own
`try`/`catch`, so a write failure leaves the cache unchanged and the
fresh record is still returned. -/
def getUserPermissions (email : String) (cached : Option Permissions)
    (putFails : Bool) : Except String Permissions × Option Permissions :=
  if !(validateUserEmailStr email) then
    (.error PERMISSION_ERROR, cached)
  else
    match cached with
    | some p => (.ok p, cached)
    | none =>
        let permissions := loadUserPermissionsFromConfig email
        if putFails then
          (.ok permissions, cached)
        else
          (.ok permissions, some permissions)

/-- `UserService.hasAccessToCampus(email, campus)`: resolves permissions
and checks membership; the `catch` converts any resolution error to
`false`. -/
def hasAccessToCampus (email campus : String) (cached : Option Permissions)
    (putFails : Bool) : Bool :=
  match (getUserPermissions email cached putFails).1 with
  | .ok permissions => permissions.hasAccess && permissions.campuses.contains campus
  | .error _ => false

/-! ### JSON serialization (`JSON.stringify` on a 2-D string grid) -/

/-- `JSON.stringify` of one string cell. -/
def jsonQuote (s : String) : String := "\"" ++ s ++ "\""

/-- `JSON.stringify` of one row. -/
def jsonRow (r : List String) : String :=
  "[" ++ String.intercalate "," (r.map jsonQuote) ++ "]"

/-- `JSON.stringify` of a row-major grid; `jsonStringify [] = "[]"`. -/
def jsonStringify (d : List (List String)) : String :=
  "[" ++ String.intercalate "," (d.map jsonRow) ++ "]"

/-! ### Main API: `filterCaseloadData` -/

/-- Inputs of one `filterCaseloadData` execution that come from the
platform: the session identity (Session can throw, or return an empty
string when unavailable), the permissions cache state, and the
`dataService.getCachedDataForUser` call (which can throw; a `null`/empty
result is the empty list). -/
structure MainEnv where
  currentUserEmail : Except String String
  permCached : Option Permissions
  permPutFails : Bool
  cachedDataForUser : Except String (List (List String))

/-- The `try` block of `filterCaseloadData`, step by step from the
source: falsy identity throws; invalid email returns `"[]"`; no access
returns `"[]"`; missing/empty data returns `"[]"`; otherwise the data is
serialized.  Logging calls swallow their own errors and are omitted. -/
def filterCaseloadDataTry (env : MainEnv) : Except String String :=
  match env.currentUserEmail with
  | .error e => .error e
  | .ok userEmail =>
      if userEmail.isEmpty then .error "Unable to identify current user"
      else if !(validateUserEmailStr userEmail) then .ok (jsonStringify [])
      else
        match (getUserPermissions userEmail env.permCached env.permPutFails).1 with
        | .error e => .error e
        | .ok permissions =>
            if !permissions.hasAccess then .ok (jsonStringify [])
            else
              match env.cachedDataForUser with
              | .error e => .error e
              | .ok data =>
                  if data.isEmpty then .ok (jsonStringify [])
                  else .ok (jsonStringify data)

/-- `filterCaseloadData()`: the `catch` block builds an error response
server-side (`ErrorUtils.handleException` — modelled from the spec as a
total normalizer, since Utils.js is not in the repository snapshot) and
returns `JSON.stringify([])` to the caller. -/
def filterCaseloadData (env : MainEnv) : String :=
  match filterCaseloadDataTry env with
  | .ok s => s
  | .error _ => jsonStringify []

/-! ### Main API: `healthCheck` -/

/-- Outcomes of the four external probes used by `healthCheck`:
`dataService.initializeSpreadsheet()`, `getCurrentUserEmail()` (the test
is truthiness of the returned email), `CacheService` `put`, and
`dataService.getDataStatistics()` (the returned `Bool` is whether the
stats object carries a truthy `error` field). -/
structure HealthEnv where
  initSpreadsheet : Except String Unit
  currentUserEmail : Except String String
  cachePut : Except String Unit
  dataStatistics : Except String Bool

/-- The `tests` object of the health report. -/
structure HealthTests where
  spreadsheetAccess : Bool
  userService : Bool
  cacheService : Bool
  dataProcessing : Bool
deriving DecidableEq

/-- The health report (timestamp/duration/version fields omitted). -/
structure HealthStatus where
  status : String
  tests : HealthTests
deriving DecidableEq

/-- `healthCheck()`: each probe is wrapped in its own `try`/`catch`
(leaving its flag `false` on failure); the status is `healthy` iff all
four flags are true, else `degraded`.  The outer `catch` (status
`unhealthy`) is unreachable: everything in the body besides the
individually-caught probes is pure or a logging call that swallows its
own errors. -/
def healthCheck (env : HealthEnv) : HealthStatus :=
  let t1 := match env.initSpreadsheet with | .ok _ => true | .error _ => false
  let t2 := match env.currentUserEmail with | .ok e => !e.isEmpty | .error _ => false
  let t3 := match env.cachePut with | .ok _ => true | .error _ => false
  let t4 := match env.dataStatistics with | .ok hasError => !hasError | .error _ => false
  let allPassed := t1 && t2 && t3 && t4
  { status := if allPassed then "healthy" else "degraded",
    tests := { spreadsheetAccess := t1, userService := t2,
               cacheService := t3, dataProcessing := t4 } }

/-! ### Main API: `generateErrorId` -/

/-- A decimal digit character; the `% 10` keeps the function total (all
uses pass values below the width anyway). -/
def digitChar (n : Nat) : Char := Char.ofNat (48 + n % 10)

/-- Two fixed-width decimal digits, as `Date.toISOString` renders month,
day, hour, minute and second fields. -/
def pad2 (n : Nat) : List Char := [digitChar (n / 10), digitChar n]

/-- Three fixed-width decimal digits (milliseconds field). -/
def pad3 (n : Nat) : List Char :=
  [digitChar (n / 100), digitChar (n / 10), digitChar n]

/-- Four fixed-width decimal digits (year field). -/
def pad4 (n : Nat) : List Char :=
  [digitChar (n / 1000), digitChar (n / 100), digitChar (n / 10), digitChar n]

/-- `new Date().toISOString()`: always the 24-character shape
`YYYY-MM-DDTHH:mm:ss.sssZ`. -/
def toISOString (y mo d h mi s ms : Nat) : String :=
  String.mk (pad4 y ++ ['-'] ++ pad2 mo ++ ['-'] ++ pad2 d ++ ['T'] ++
    pad2 h ++ [':'] ++ pad2 mi ++ [':'] ++ pad2 s ++ ['.'] ++ pad3 ms ++ ['Z'])

/-- The character class kept by `.replace(/[-:T.]/g, '')`. -/
def isoKeep (c : Char) : Bool :=
  !(c == '-' || c == ':' || c == 'T' || c == '.')

/-- `iso.replace(/[-:T.]/g, '')` as a character filter. -/
def stripIsoChars (s : String) : List Char := s.toList.filter isoKeep

/-- `generateErrorId()`, with the two platform-supplied strings as
inputs: `iso` is `new Date().toISOString()` and `rnd` is
`Math.random().toString(36)`.  `substring(0, 14)` and `substring(2, 8)`
are `take`/`drop` on the character list (JavaScript `substring` clamps
out-of-range indices, so a short `rnd` yields a short random part). -/
def generateErrorId (iso rnd : String) : String :=
  let timestamp := String.mk ((stripIsoChars iso).take 14)
  let random := String.mk ((rnd.toList.drop 2).take 6)
  "ERR_" ++ timestamp ++ "_" ++ random

/-- The claimed identifier format: `"ERR_"`, exactly 14 decimal digits,
`'_'`, exactly 6 alphanumeric characters. -/
def isErrIdFormat (str : String) : Bool :=
  let cs := str.toList
  let t := (cs.drop 4).take 14
  let r := (cs.drop 4).drop 14
  (cs.take 4 == "ERR_".toList) && (t.length == 14) && t.all Char.isDigit &&
  (r.take 1 == ['_']) && ((r.drop 1).length == 6) &&
  (r.drop 1).all Char.isAlphanum

/-- The 36 digit characters of JavaScript `Number.prototype.toString(36)`. -/
def base36Chars : List Char := "0123456789abcdefghijklmnopqrstuvwxyz".toList

/-- Shape of `Math.random().toString(36)` for a value in `(0, 1)` whose
base-36 expansion does not terminate before the point: `"0."` followed
by base-36 digit characters.  (The expansion can be arbitrarily short:
`(0.25).toString(36)` is `"0.9"`, and `(0).toString(36)` is `"0"`.) -/
def isJsRandomBase36 (s : String) : Bool :=
  match s.toList with
  | '0' :: '.' :: rest => rest.all (fun c => decide (c ∈ base36Chars))
  | _ => false

/-! ### Main API: `updateSpreadsheetConfig` -/

/-- JavaScript `String.prototype.includes`: `sub` occurs contiguously in
`s`, i.e. it is a leading segment of some suffix of `s`. -/
def jsIncludes (s sub : String) : Bool :=
  (List.range (s.toList.length + 1)).any
    (fun i => sub.toList.isPrefixOf (s.toList.drop i))

/-- The application configuration relevant to `updateSpreadsheetConfig`.
The source never assigns to any `CONFIG` field, so the whole structure
stands for "every CONFIG field". -/
structure Config where
  spreadsheetId : String
  sheetName : String
  allowedDomain : String
  fullAccessCampusCount : Nat
  columnsToRemove : List Nat
deriving DecidableEq

/-- The reference configuration values from Config.js. -/
def referenceConfig : Config :=
  { spreadsheetId := "1SxbUOEIaogQyy66E4fvLcIqblGnvueduSaYz1ftsAEA",
    sheetName := "CURRENT CASELOAD",
    allowedDomain := ALLOWED_DOMAIN,
    fullAccessCampusCount := FULL_ACCESS_CAMPUS_COUNT,
    columnsToRemove := COLUMNS_TO_REMOVE }

/-- Mutable application state touched by `updateSpreadsheetConfig`: the
configuration and the current user's two cache entries. -/
structure AppState where
  config : Config
  permCache : Option Permissions
  dataCache : Option (List (List String))
deriving DecidableEq

/-- `clearUserCache()` effect on the state: both entries of the current
user are removed (each remove swallows its own errors). -/
def clearUserCacheState (st : AppState) : AppState :=
  { st with permCache := none, dataCache := none }

/-- Platform inputs of one `updateSpreadsheetConfig` run: the session
identity, `SpreadsheetApp.openById` on the candidate id (can throw),
`getSheetByName` (`none` when the sheet is absent) and the values read
from the sheet. -/
structure UpdateEnv where
  currentUserEmail : Except String String
  openById : Except String Unit
  sheetLookup : Option Unit
  sheetData : List (List String)

/-- Result object of `updateSpreadsheetConfig` (message/timestamp fields
reduced to the success flag and the ids echoed in the instructions). -/
structure UpdateResult where
  success : Bool
  currentSpreadsheetId : String
  newSpreadsheetId : String
deriving DecidableEq

/-- `updateSpreadsheetConfig(newSpreadsheetId, newSheetName)`: verifies
the caller is an administrator, validates the candidate spreadsheet,
clears the caches, and returns instructions to edit Config.js manually —
every failure is caught and returned as a failure result.  No branch
assigns to the configuration. -/
def updateSpreadsheetConfig (newSpreadsheetId : String)
    (env : UpdateEnv) (st : AppState) : UpdateResult × AppState :=
  let failure : UpdateResult :=
    { success := false, currentSpreadsheetId := st.config.spreadsheetId,
      newSpreadsheetId := newSpreadsheetId }
  match env.currentUserEmail with
  | .error _ => (failure, st)
  | .ok currentUserEmail =>
      if !(jsIncludes currentUserEmail "alvaro.gomez@nisd.net" ||
           jsIncludes currentUserEmail "linda.rodriguez@nisd.net") then
        (failure, st)
      else
        match env.openById with
        | .error _ => (failure, st)
        | .ok _ =>
            match env.sheetLookup with
            | none => (failure, st)
            | some _ =>
                if env.sheetData.isEmpty then (failure, st)
                else
                  let st' := clearUserCacheState st
                  ({ success := true,
                     currentSpreadsheetId := st.config.spreadsheetId,
                     newSpreadsheetId := newSpreadsheetId }, st')

/-! ### Column removal (DataService) -/

/-- `[...columnIndexes].sort((a, b) => b - a)`: descending insertion
sort. -/
def insertDesc (n : Nat) : List Nat → List Nat
  | [] => [n]
  | m :: t => if m ≤ n then n :: m :: t else m :: insertDesc n t

/-- Sort a list of indices in descending order. -/
def sortDesc : List Nat → List Nat
  | [] => []
  | n :: t => insertDesc n (sortDesc t)

/-- Modelled from the spec: `dataService.removeColumns` (DataService.js
is not part of the repository snapshot; only its callers and the test
suite are).  Per spec §4.3 step 3 and the repository's "Column removal
simulation" test, the configured indices are applied to each row in
descending order, each `splice(colIndex, 1)` being `eraseIdx`. -/
def removeColumnsRow {α : Type} (row : List α) (cols : List Nat) : List α :=
  (sortDesc cols).foldl (fun r i => r.eraseIdx i) row

/-- Modelled from the spec: `dataService.removeColumns` applied to every
row of the grid (headers included). -/
def removeColumns {α : Type} (data : List (List α)) (cols : List Nat) :
    List (List α) :=
  data.map (fun row => removeColumnsRow row cols)

/-- Reference "survivors" function: keep exactly the elements whose
original index (offset `n` plus position) is not in `s`, in order. -/
def keepFrom {α : Type} (s : List Nat) : List α → Nat → List α
  | [], _ => []
  | a :: t, n => if n ∈ s then keepFrom s t (n + 1) else a :: keepFrom s t (n + 1)

/-! ## Helper lemmas -/

/-- The serialized empty grid is the two-character string `"[]"`. -/
theorem jsonStringify_nil : jsonStringify [] = "[]" := by decide

/-- The empty string is empty (evaluation fact used below). -/
theorem string_nil_isEmpty : ("" : String).isEmpty = true := by decide

/-- Permission resolution only returns a record when the email
validates. -/
theorem getUserPermissions_ok_validate {email : String}
    {c : Option Permissions} {pf : Bool} {p : Permissions}
    (h : (getUserPermissions email c pf).1 = Except.ok p) :
    validateUserEmailStr email = true := by
  by_cases hv : validateUserEmailStr email = true
  · exact hv
  · have hb : validateUserEmailStr email = false := by
      simpa using hv
    simp [getUserPermissions, hb] at h

/-- A validated email is nonempty (the validator's first check). -/
theorem validate_isEmpty_false {s : String}
    (h : validateUserEmailStr s = true) : s.isEmpty = false := by
  unfold validateUserEmailStr validateUserEmail at h
  by_cases he : s.isEmpty = true
  · simp [he] at h
  · simpa using he

/-! ## Claims -/

/-- Claim C2: on a cache miss, permission resolution is a pure function
of the Permission Table: an absent identity yields the no-access record
(`hasAccess = false`, `isFullAccess = false`, role `"none"`, empty
campus list); a present identity with campus list `L` yields
`hasAccess = true`, `campuses = L`, `isFullAccess` true iff `L` has at
least the configured threshold of entries, and role `"administrator"`
iff full access, else `"coordinator"`; the threshold is 17. -/
theorem loadUserPermissionsFromConfig_spec (email : String) :
    (lookupMapping email = none →
      loadUserPermissionsFromConfig email =
        { email := email, campuses := [], hasAccess := false,
          isFullAccess := false, role := "none" })
    ∧ (∀ L, lookupMapping email = some L →
        loadUserPermissionsFromConfig email =
          { email := email, campuses := L, hasAccess := true,
            isFullAccess := decide (FULL_ACCESS_CAMPUS_COUNT ≤ L.length),
            role := if FULL_ACCESS_CAMPUS_COUNT ≤ L.length then "administrator"
                    else "coordinator" })
    ∧ FULL_ACCESS_CAMPUS_COUNT = 17 := by
  refine ⟨?_, ?_, rfl⟩
  · intro h
    simp [loadUserPermissionsFromConfig, h]
  · intro L h
    simp [loadUserPermissionsFromConfig, h]

/-- Witness for C2: a concrete absent identity resolves to the
no-access record, and a concrete present identity with 4 campuses
resolves to a coordinator record. -/
theorem loadUserPermissionsFromConfig_spec_witness :
    loadUserPermissionsFromConfig "nobody@nisd.net" =
      { email := "nobody@nisd.net", campuses := [], hasAccess := false,
        isFullAccess := false, role := "none" }
    ∧ loadUserPermissionsFromConfig "alvaro.gomez@nisd.net" =
      { email := "alvaro.gomez@nisd.net",
        campuses := ["Brandeis", "Brennan", "Clark", "Harlan"],
        hasAccess := true, isFullAccess := false, role := "coordinator" } := by
  constructor
  · exact (loadUserPermissionsFromConfig_spec "nobody@nisd.net").1 (by decide)
  · have h := (loadUserPermissionsFromConfig_spec "alvaro.gomez@nisd.net").2.1
      ["Brandeis", "Brennan", "Clark", "Harlan"] (by decide)
    simpa using h

/-- Claim C4: `validateUserEmail` is total (a Lean function into `Bool`)
and fails closed: every non-string input (including `null`) yields
`false`, every string not ending in the configured domain suffix yields
`false`, and every string failing the address-format regular expression
yields `false`. -/
theorem validateUserEmail_fails_closed :
    (∀ v : JsValue, (∀ s, v ≠ JsValue.vStr s) → validateUserEmail v = false)
    ∧ (∀ s, jsEndsWith s ALLOWED_DOMAIN = false →
        validateUserEmail (JsValue.vStr s) = false)
    ∧ (∀ s, emailRegexTest s = false →
        validateUserEmail (JsValue.vStr s) = false) := by
  refine ⟨?_, ?_, ?_⟩
  · intro v h
    cases v with
    | vNull => rfl
    | vStr s => exact absurd rfl (h s)
    | vOther => rfl
  · intro s h
    by_cases he : s.isEmpty = true <;> simp [validateUserEmail, he, h]
  · intro s h
    by_cases he : s.isEmpty = true
    · simp [validateUserEmail, he]
    · by_cases hd : jsEndsWith s ALLOWED_DOMAIN = true <;>
        simp [validateUserEmail, he, hd, h]

/-- Witness for C4: the spec's scenario input `"user@bad.com"` (wrong
domain) and the `null` input both return `false`. -/
theorem validateUserEmail_fails_closed_witness :
    validateUserEmail (JsValue.vStr "user@bad.com") = false
    ∧ validateUserEmail JsValue.vNull = false :=
  ⟨validateUserEmail_fails_closed.2.1 "user@bad.com" (by decide),
   validateUserEmail_fails_closed.1 JsValue.vNull (fun _ h => JsValue.noConfusion h)⟩

/-- Claim C5: for a valid identity, when the fresh permission record is
resolved on a cache miss and the cache write fails, the failure is
swallowed: the call still returns the freshly resolved record, and the
returned value is identical to the one returned when the cache write
succeeds. -/
theorem getUserPermissions_cacheWriteFailure_swallowed (email : String)
    (h : validateUserEmailStr email = true) :
    (getUserPermissions email none true).1
      = Except.ok (loadUserPermissionsFromConfig email)
    ∧ (getUserPermissions email none true).1
      = (getUserPermissions email none false).1 := by
  constructor <;> simp [getUserPermissions, h]

/-- Witness for C5: a concrete valid identity on a cache miss with a
failing cache write still receives its fresh permission record. -/
theorem getUserPermissions_cacheWriteFailure_swallowed_witness :
    (getUserPermissions "alvaro.gomez@nisd.net" none true).1
      = Except.ok (loadUserPermissionsFromConfig "alvaro.gomez@nisd.net") :=
  (getUserPermissions_cacheWriteFailure_swallowed "alvaro.gomez@nisd.net"
    (by decide)).1

/-- Claim C9: `hasAccessToCampus(email, campus)` returns `true` exactly
when permission resolution returns a record with `hasAccess = true`
whose campus list contains `campus`; and when resolution fails (in
particular for an invalid email) it returns `false` — it is a total
`Bool`-valued function, so it never throws. -/
theorem hasAccessToCampus_spec (email campus : String)
    (cached : Option Permissions) (pf : Bool) :
    (hasAccessToCampus email campus cached pf = true ↔
      ∃ p, (getUserPermissions email cached pf).1 = Except.ok p ∧
        p.hasAccess = true ∧ p.campuses.contains campus = true)
    ∧ (validateUserEmailStr email = false →
        hasAccessToCampus email campus cached pf = false) := by
  constructor
  · unfold hasAccessToCampus
    rcases hg : (getUserPermissions email cached pf).1 with e | p
    · simp
    · simp
  · intro hv
    unfold hasAccessToCampus
    have h : (getUserPermissions email cached pf).1 = .error PERMISSION_ERROR := by
      simp [getUserPermissions, hv]
    rw [h]

/-- Witness for C9: the invalid identity `"user@bad.com"` is denied
access to campus `"NAHS"` without an exception. -/
theorem hasAccessToCampus_spec_witness :
    hasAccessToCampus "user@bad.com" "NAHS" none false = false :=
  (hasAccessToCampus_spec "user@bad.com" "NAHS" none false).2 (by decide)

/-- Claim C10: in the reference Permission Table every campus granted to
any identity is one of the 17 configured campuses, and exactly one
identity (and hence exactly one `administrator`-role resolution) meets
the full-access threshold. -/
theorem legacyMapping_invariants :
    LEGACY_EMAIL_CAMPUS_MAPPING.all
      (fun p => p.2.all (fun c => CAMPUSES.contains c)) = true
    ∧ (LEGACY_EMAIL_CAMPUS_MAPPING.filter
        (fun p => decide (FULL_ACCESS_CAMPUS_COUNT ≤ p.2.length))).length = 1
    ∧ CAMPUSES.length = 17
    ∧ (LEGACY_EMAIL_CAMPUS_MAPPING.filter
        (fun p => (loadUserPermissionsFromConfig p.1).role == "administrator")).length = 1 := by
  refine ⟨by decide, by decide, by decide, by decide⟩

/-- Claim C6: `healthCheck` is a total function (never throws), and its
status field is `"healthy"` exactly when all four probes succeed — the
data source initializes, identity resolution returns a nonempty email,
the cache write succeeds, and the statistics call returns without an
error marker — and `"degraded"` in every other case. -/
theorem healthCheck_spec (env : HealthEnv) :
    ((healthCheck env).status = "healthy" ↔
      ((∃ u, env.initSpreadsheet = Except.ok u) ∧
       (∃ e, env.currentUserEmail = Except.ok e ∧ e.isEmpty = false) ∧
       (∃ u, env.cachePut = Except.ok u) ∧
       env.dataStatistics = Except.ok false))
    ∧ ((healthCheck env).status = "healthy"
        ∨ (healthCheck env).status = "degraded") := by
  obtain ⟨i, u, c, d⟩ := env
  rcases i with ei | vi <;> rcases u with eu | vu <;> rcases c with ec | vc <;>
    rcases d with ed | vd <;>
    first
      | (constructor
         · constructor
           · intro h
             simp [healthCheck] at h
           · rintro ⟨⟨u1, h1⟩, ⟨e2, h2, h2e⟩, ⟨u3, h3⟩, h4⟩
             simp_all
         · right
           simp [healthCheck])
      | skip
  all_goals
    by_cases hve : vu.isEmpty = true <;> rcases vd with _ | _ <;>
      constructor <;>
        simp_all [healthCheck]

/-- Claim C8: `updateSpreadsheetConfig` never mutates the application
configuration: on every run, successful or failed, the configuration
(every field) after the call equals the configuration before it, and the
only state change the operation can make is clearing the caller's cache
entries. -/
theorem updateSpreadsheetConfig_frame (newId : String) (env : UpdateEnv)
    (st : AppState) :
    ((updateSpreadsheetConfig newId env st).2.config = st.config)
    ∧ ((updateSpreadsheetConfig newId env st).2 = st
        ∨ (updateSpreadsheetConfig newId env st).2 = clearUserCacheState st) := by
  have h : (updateSpreadsheetConfig newId env st).2 = st
      ∨ (updateSpreadsheetConfig newId env st).2 = clearUserCacheState st := by
    unfold updateSpreadsheetConfig
    rcases env.currentUserEmail with e | em
    · exact Or.inl rfl
    · dsimp only
      split
      · exact Or.inl rfl
      · rcases env.openById with eo | vo
        · exact Or.inl rfl
        · dsimp only
          rcases env.sheetLookup with _ | vs
          · exact Or.inl rfl
          · dsimp only
            split
            · exact Or.inl rfl
            · exact Or.inr rfl
  refine ⟨?_, h⟩
  rcases h with h | h
  · rw [h]
  · rw [h]
    rfl

/-- Claim C1: `filterCaseloadData` is a total function into strings (the
`catch` converts every internal exception into a normal return), it
returns the serialized empty grid `"[]"` whenever the identity cannot be
resolved (the session call throws or returns a falsy email), the email
fails validation, the resolved permissions have `hasAccess = false`, or
the data fetch throws — and in every execution the result is either
`"[]"` or the serialization of the fetched grid. -/
theorem filterCaseloadData_fails_closed (env : MainEnv) :
    (((∃ e, env.currentUserEmail = Except.error e)
      ∨ env.currentUserEmail = Except.ok ""
      ∨ (∃ s, env.currentUserEmail = Except.ok s ∧ validateUserEmailStr s = false)
      ∨ (∃ s p, env.currentUserEmail = Except.ok s ∧
          (getUserPermissions s env.permCached env.permPutFails).1 = Except.ok p ∧
          p.hasAccess = false)
      ∨ (∃ e, env.cachedDataForUser = Except.error e))
      → filterCaseloadData env = "[]")
    ∧ (filterCaseloadData env = "[]"
        ∨ ∃ data, env.cachedDataForUser = Except.ok data ∧
            filterCaseloadData env = jsonStringify data) := by
  constructor
  · rintro (⟨e, he⟩ | h0 | ⟨s, hs, hv⟩ | ⟨s, p, hs, hp, hpa⟩ | ⟨e, he⟩)
    · simp [filterCaseloadData, filterCaseloadDataTry, he, jsonStringify_nil]
    · simp [filterCaseloadData, filterCaseloadDataTry, h0, string_nil_isEmpty,
        jsonStringify_nil]
    · by_cases hse : s.isEmpty = true <;>
        simp [filterCaseloadData, filterCaseloadDataTry, hs, hse, hv,
          jsonStringify_nil]
    · have hvt : validateUserEmailStr s = true := getUserPermissions_ok_validate hp
      have hne : s.isEmpty = false := validate_isEmpty_false hvt
      simp [filterCaseloadData, filterCaseloadDataTry, hs, hne, hvt, hp, hpa,
        jsonStringify_nil]
    · rcases hu : env.currentUserEmail with e' | s
      · simp [filterCaseloadData, filterCaseloadDataTry, hu, jsonStringify_nil]
      · by_cases hse : s.isEmpty = true
        · simp [filterCaseloadData, filterCaseloadDataTry, hu, hse,
            jsonStringify_nil]
        · by_cases hv : validateUserEmailStr s = true
          · rcases hg : (getUserPermissions s env.permCached env.permPutFails).1
              with e'' | p
            · simp [filterCaseloadData, filterCaseloadDataTry, hu, hse, hv, hg,
                jsonStringify_nil]
            · by_cases hpa : p.hasAccess = true <;>
                simp [filterCaseloadData, filterCaseloadDataTry, hu, hse, hv,
                  hg, hpa, he, jsonStringify_nil]
          · have hvf : validateUserEmailStr s = false := by simpa using hv
            simp [filterCaseloadData, filterCaseloadDataTry, hu, hse, hvf,
              jsonStringify_nil]
  · rcases hu : env.currentUserEmail with e | s
    · left
      simp [filterCaseloadData, filterCaseloadDataTry, hu, jsonStringify_nil]
    · by_cases hse : s.isEmpty = true
      · left
        simp [filterCaseloadData, filterCaseloadDataTry, hu, hse,
          jsonStringify_nil]
      · by_cases hv : validateUserEmailStr s = true
        · rcases hg : (getUserPermissions s env.permCached env.permPutFails).1
            with e'' | p
          · left
            simp [filterCaseloadData, filterCaseloadDataTry, hu, hse, hv, hg,
              jsonStringify_nil]
          · by_cases hpa : p.hasAccess = true
            · rcases hd : env.cachedDataForUser with e3 | data
              · left
                simp [filterCaseloadData, filterCaseloadDataTry, hu, hse, hv,
                  hg, hpa, hd, jsonStringify_nil]
              · by_cases hde : data.isEmpty = true
                · left
                  simp [filterCaseloadData, filterCaseloadDataTry, hu, hse, hv,
                    hg, hpa, hd, hde, jsonStringify_nil]
                · right
                  refine ⟨data, rfl, ?_⟩
                  simp [filterCaseloadData, filterCaseloadDataTry, hu, hse, hv,
                    hg, hpa, hd, hde]
            · left
              have hpf : p.hasAccess = false := by simpa using hpa
              simp [filterCaseloadData, filterCaseloadDataTry, hu, hse, hv, hg,
                hpf, jsonStringify_nil]
        · left
          have hvf : validateUserEmailStr s = false := by simpa using hv
          simp [filterCaseloadData, filterCaseloadDataTry, hu, hse, hvf,
            jsonStringify_nil]

/-- Witness for C1: an execution whose session lookup throws returns the
serialized empty grid. -/
theorem filterCaseloadData_fails_closed_witness :
    filterCaseloadData
      { currentUserEmail := Except.error "session failure", permCached := none,
        permPutFails := false, cachedDataForUser := Except.ok [] } = "[]" :=
  (filterCaseloadData_fails_closed _).1 (Or.inl ⟨"session failure", rfl⟩)

/-! ### Lemmas about `keepFrom` and `eraseIdx` (for claim C3) -/

/-- When every removed index is below the running offset, nothing is
removed. -/
theorem keepFrom_of_forall_lt {α : Type} (s : List Nat) (l : List α) (n : Nat)
    (h : ∀ j ∈ s, j < n) : keepFrom s l n = l := by
  induction l generalizing n with
  | nil => rfl
  | cons a t ih =>
      have hn : n ∉ s := fun hm => absurd (h n hm) (lt_irrefl n)
      simp only [keepFrom, if_neg hn]
      exact congrArg (a :: ·) (ih (n + 1) (fun j hj => Nat.lt_succ_of_lt (h j hj)))

/-- Key step: erasing the position of absolute index `i` (larger than
every index in `s`) and then filtering out `s` equals filtering out
`i :: s` directly. -/
theorem keepFrom_eraseIdx {α : Type} (s : List Nat) (i : Nat) (l : List α)
    (n : Nat) (hs : ∀ j ∈ s, j < i) (hn : n ≤ i) :
    keepFrom s (l.eraseIdx (i - n)) n = keepFrom (i :: s) l n := by
  induction l generalizing n with
  | nil => simp [List.eraseIdx, keepFrom]
  | cons a t ih =>
      rcases Nat.eq_or_lt_of_le hn with he | hlt
      · have h0 : i - n = 0 := by omega
        rw [h0]
        have herase : (a :: t).eraseIdx 0 = t := rfl
        rw [herase]
        have hmem : n ∈ i :: s := by
          rw [← he]; exact List.mem_cons_self n s
        rw [keepFrom, if_pos hmem]
        rw [keepFrom_of_forall_lt s t n (fun j hj => by have := hs j hj; omega)]
        rw [keepFrom_of_forall_lt (i :: s) t (n + 1)
          (fun j hj => by
            rcases List.mem_cons.mp hj with rfl | hj'
            · omega
            · have := hs j hj'; omega)]
      · have h1 : i - n = (i - (n + 1)) + 1 := by omega
        rw [h1]
        have herase : (a :: t).eraseIdx ((i - (n + 1)) + 1)
            = a :: t.eraseIdx (i - (n + 1)) := rfl
        rw [herase]
        have hne : n ≠ i := by omega
        by_cases hmem : n ∈ s
        · have hmem' : n ∈ i :: s := List.mem_cons_of_mem i hmem
          rw [keepFrom, if_pos hmem, keepFrom, if_pos hmem']
          exact ih (n + 1) hlt
        · have hmem' : n ∉ i :: s := by
            intro hc
            rcases List.mem_cons.mp hc with rfl | hc'
            · exact hne rfl
            · exact hmem hc'
          rw [keepFrom, if_neg hmem, keepFrom, if_neg hmem']
          exact congrArg (a :: ·) (ih (n + 1) hlt)

/-- `keepFrom` only depends on the membership predicate of the index
list. -/
theorem keepFrom_congr {α : Type} (s t : List Nat)
    (h : ∀ j, j ∈ s ↔ j ∈ t) (l : List α) (n : Nat) :
    keepFrom s l n = keepFrom t l n := by
  induction l generalizing n with
  | nil => rfl
  | cons a u ih =>
      by_cases hm : n ∈ s
      · rw [keepFrom, if_pos hm, keepFrom, if_pos ((h n).mp hm)]
        exact ih (n + 1)
      · rw [keepFrom, if_neg hm, keepFrom, if_neg (fun hc => hm ((h n).mpr hc))]
        exact congrArg (a :: ·) (ih (n + 1))

/-- `keepFrom` keeps exactly the elements whose absolute index is not in
`s`, in their original relative order: it is filtering the indexed list. -/
theorem keepFrom_eq_enumFrom {α : Type} (s : List Nat) (l : List α) (n : Nat) :
    keepFrom s l n
      = (((List.enumFrom n l).filter (fun p => decide (p.1 ∉ s))).map Prod.snd) := by
  induction l generalizing n with
  | nil => rfl
  | cons a t ih =>
      by_cases hm : n ∈ s
      · rw [keepFrom, if_pos hm]
        simp [List.enumFrom, List.filter, hm, ih (n + 1)]
      · rw [keepFrom, if_neg hm]
        simp [List.enumFrom, List.filter, hm, ih (n + 1)]

/-- Removing the configured column indices (descending order of
application) from any row is exactly filtering out those original
indices. -/
theorem removeColumnsRow_keepFrom {α : Type} (row : List α) :
    removeColumnsRow row COLUMNS_TO_REMOVE = keepFrom COLUMNS_TO_REMOVE row 0 := by
  have hsort : sortDesc COLUMNS_TO_REMOVE = [14, 13, 12, 9, 8, 7] := by decide
  have e1 : ∀ (l : List α),
      keepFrom ([] : List Nat) (l.eraseIdx 7) 0 = keepFrom [7] l 0 := by
    intro l
    have h := keepFrom_eraseIdx ([] : List Nat) 7 l 0 (by simp) (by omega)
    simpa using h
  have e2 : ∀ (l : List α),
      keepFrom [7] (l.eraseIdx 8) 0 = keepFrom [8, 7] l 0 := by
    intro l
    have h := keepFrom_eraseIdx [7] 8 l 0 (by decide) (by omega)
    simpa using h
  have e3 : ∀ (l : List α),
      keepFrom [8, 7] (l.eraseIdx 9) 0 = keepFrom [9, 8, 7] l 0 := by
    intro l
    have h := keepFrom_eraseIdx [8, 7] 9 l 0 (by decide) (by omega)
    simpa using h
  have e4 : ∀ (l : List α),
      keepFrom [9, 8, 7] (l.eraseIdx 12) 0 = keepFrom [12, 9, 8, 7] l 0 := by
    intro l
    have h := keepFrom_eraseIdx [9, 8, 7] 12 l 0 (by decide) (by omega)
    simpa using h
  have e5 : ∀ (l : List α),
      keepFrom [12, 9, 8, 7] (l.eraseIdx 13) 0
        = keepFrom [13, 12, 9, 8, 7] l 0 := by
    intro l
    have h := keepFrom_eraseIdx [12, 9, 8, 7] 13 l 0 (by decide) (by omega)
    simpa using h
  have e6 : ∀ (l : List α),
      keepFrom [13, 12, 9, 8, 7] (l.eraseIdx 14) 0
        = keepFrom [14, 13, 12, 9, 8, 7] l 0 := by
    intro l
    have h := keepFrom_eraseIdx [13, 12, 9, 8, 7] 14 l 0 (by decide) (by omega)
    simpa using h
  have hmain : removeColumnsRow row COLUMNS_TO_REMOVE
      = keepFrom [14, 13, 12, 9, 8, 7] row 0 := by
    unfold removeColumnsRow
    rw [hsort]
    show ((((((row.eraseIdx 14).eraseIdx 13).eraseIdx 12).eraseIdx 9).eraseIdx
      8).eraseIdx 7) = keepFrom [14, 13, 12, 9, 8, 7] row 0
    rw [← e6 row, ← e5 _, ← e4 _, ← e3 _, ← e2 _, ← e1 _]
    exact (keepFrom_of_forall_lt [] _ 0 (by simp)).symm
  rw [hmain]
  refine keepFrom_congr _ _ ?_ row 0
  intro j
  simp only [COLUMNS_TO_REMOVE, List.mem_cons, List.not_mem_nil, or_false]
  tauto

/-- Claim C3: column removal is index-stable: for every row, removing
the configured index list `[7, 8, 9, 12, 13, 14]` (applied in descending
index order within the row) deletes exactly the cells at those original
indices and keeps the survivors in their original relative order (the
result is the index-filtered row); in particular a 15-column row is
reduced to exactly its 9 surviving columns in order. -/
theorem removeColumns_index_stable :
    (∀ (row : List String),
      removeColumnsRow row COLUMNS_TO_REMOVE
        = ((row.enum.filter (fun p => decide (p.1 ∉ COLUMNS_TO_REMOVE))).map
            Prod.snd))
    ∧ removeColumnsRow
        ["c0", "c1", "c2", "c3", "c4", "c5", "c6", "c7", "c8", "c9", "c10",
         "c11", "c12", "c13", "c14"] COLUMNS_TO_REMOVE
      = ["c0", "c1", "c2", "c3", "c4", "c5", "c6", "c10", "c11"] := by
  constructor
  · intro row
    rw [removeColumnsRow_keepFrom]
    simpa [List.enum] using keepFrom_eq_enumFrom COLUMNS_TO_REMOVE row 0
  · decide

/-! ### Lemmas about `generateErrorId` (for claim C7) -/

/-- Every `digitChar` is a decimal digit. -/
theorem digitChar_isDigit (n : Nat) : (digitChar n).isDigit = true := by
  unfold digitChar
  have h : n % 10 < 10 := Nat.mod_lt _ (by omega)
  revert h
  generalize n % 10 = k
  intro h
  interval_cases k <;> decide

/-- `digitChar`s survive the `[-:T.]` strip. -/
theorem isoKeep_digitChar (n : Nat) : isoKeep (digitChar n) = true := by
  unfold digitChar
  have h : n % 10 < 10 := Nat.mod_lt _ (by omega)
  revert h
  generalize n % 10 = k
  intro h
  interval_cases k <;> decide

/-- Stripping `[-:T.]` from an ISO timestamp leaves the 17 digits and
the trailing `Z`. -/
theorem strip_toISOString (y mo d h mi s ms : Nat) :
    stripIsoChars (toISOString y mo d h mi s ms)
      = pad4 y ++ pad2 mo ++ pad2 d ++ pad2 h ++ pad2 mi ++ pad2 s ++
        pad3 ms ++ ['Z'] := by
  show (pad4 y ++ ['-'] ++ pad2 mo ++ ['-'] ++ pad2 d ++ ['T'] ++ pad2 h ++
    [':'] ++ pad2 mi ++ [':'] ++ pad2 s ++ ['.'] ++ pad3 ms ++ ['Z']).filter
      isoKeep = _
  simp [pad4, pad3, pad2, List.filter_append, List.filter_cons,
    isoKeep_digitChar, (by decide : isoKeep '-' = false),
    (by decide : isoKeep ':' = false), (by decide : isoKeep 'T' = false),
    (by decide : isoKeep '.' = false), (by decide : isoKeep 'Z' = true)]

/-- Every base-36 digit character is alphanumeric. -/
theorem base36_alphanum : ∀ c ∈ base36Chars, c.isAlphanum = true := by decide

/-- Claim C7, counterexample: `"0.9"` is a possible value of
`Math.random().toString(36)` (it is `(0.25).toString(36)`), yet the
identifier generated from it is `"ERR_20261011192233_9"`, whose random
part has 1 character instead of 6 — the claimed format does not hold on
every invocation. -/
theorem generateErrorId_claim_counterexample :
    isJsRandomBase36 "0.9" = true
    ∧ isErrIdFormat
        (generateErrorId (toISOString 2026 10 11 19 22 33 123) "0.9") = false := by
  constructor <;> decide

/-- Claim C7, amended: every generated identifier is `"ERR_"`, exactly
14 digits of the timestamp, `'_'`, and the (up to 6) random characters;
the random part has exactly 6 alphanumeric characters whenever the
base-36 rendering of the random number has at least 8 characters (the
typical case). -/
theorem isErrIdFormat_of_shape (t r : List Char)
    (ht14 : t.length = 14) (htd : t.all Char.isDigit = true)
    (hr6 : r.length = 6) (hra : r.all Char.isAlphanum = true) :
    isErrIdFormat ("ERR_" ++ String.mk t ++ "_" ++ String.mk r) = true := by
  have hs : ("ERR_" ++ String.mk t ++ "_" ++ String.mk r).toList
      = 'E' :: 'R' :: 'R' :: '_' :: (t ++ '_' :: r) := by
    simp [String.toList, String.data_append]
  unfold isErrIdFormat
  rw [hs]
  have htake : ('E' :: 'R' :: 'R' :: '_' :: (t ++ '_' :: r)).take 4
      = "ERR_".toList := rfl
  have hdrop4 : ('E' :: 'R' :: 'R' :: '_' :: (t ++ '_' :: r)).drop 4
      = t ++ '_' :: r := rfl
  simp only [htake, hdrop4, List.take_left' ht14, List.drop_left' ht14]
  simp [ht14, htd, hr6, hra]

/-- Claim C7, amended: every generated identifier is `"ERR_"`, exactly
14 digits of the timestamp, `'_'`, and the (up to 6) random characters;
the random part has exactly 6 alphanumeric characters whenever the
base-36 rendering of the random number has at least 8 characters (the
typical case). -/
theorem generateErrorId_format (y mo d h mi s ms : Nat) (rnd : String)
    (h1 : isJsRandomBase36 rnd = true) (h2 : 8 ≤ rnd.length) :
    isErrIdFormat (generateErrorId (toISOString y mo d h mi s ms) rnd) = true := by
  unfold isJsRandomBase36 at h1
  split at h1
  case h_2 => simp at h1
  case h_1 rest heq =>
    have ht : (stripIsoChars (toISOString y mo d h mi s ms)).take 14
        = [digitChar (y / 1000), digitChar (y / 100), digitChar (y / 10),
           digitChar y, digitChar (mo / 10), digitChar mo, digitChar (d / 10),
           digitChar d, digitChar (h / 10), digitChar h, digitChar (mi / 10),
           digitChar mi, digitChar (s / 10), digitChar s] := by
      rw [strip_toISOString]
      rfl
    have hdrop : rnd.toList.drop 2 = rest := by
      rw [heq]
      rfl
    have hrestlen : 6 ≤ rest.length := by
      have hlen : rnd.length = rnd.toList.length := rfl
      rw [hlen, heq] at h2
      simp at h2
      omega
    have hrlen : (rest.take 6).length = 6 := by
      rw [List.length_take]
      omega
    have hralpha : (rest.take 6).all Char.isAlphanum = true := by
      rw [List.all_eq_true]
      intro c hc
      have hmem : c ∈ rest := List.mem_of_mem_take hc
      have hb : decide (c ∈ base36Chars) = true := by
        have hall := List.all_eq_true.mp h1 c hmem
        simpa using hall
      exact base36_alphanum c (of_decide_eq_true hb)
    show isErrIdFormat ("ERR_" ++
      String.mk ((stripIsoChars (toISOString y mo d h mi s ms)).take 14) ++
      "_" ++ String.mk ((rnd.toList.drop 2).take 6)) = true
    rw [ht, hdrop]
    refine isErrIdFormat_of_shape _ _ rfl ?_ hrlen hralpha
    simp [digitChar_isDigit]

/-- Witness for the amended C7 theorem: a concrete timestamp and a
concrete 10-character base-36 random string generate a well-formed
identifier. -/
theorem generateErrorId_format_witness :
    isErrIdFormat
      (generateErrorId (toISOString 2026 10 11 19 22 33 123) "0.k2j9qab") = true :=
  generateErrorId_format 2026 10 11 19 22 33 123 "0.k2j9qab" (by decide) (by decide)

end NahsCaseload
